import Mathlib

/-!
Verification of the ownership-resolution and reporting logic of the
property-management server (src/server.js).

The database tables are embedded as lists of records; the SQL queries of
the handlers are embedded as list operations with the usual SQL NULL
semantics: a `LEFT JOIN` that matches no row makes every joined column
NULL, and `NULL = @ownerId` is false, so a missing reference resolves to
"not accessible".  Monetary `decimal(18,2)` columns are embedded as
rationals.  Columns never read by the verified handlers (timestamps,
notes, phone numbers of entities where they are not selected, ...) are
omitted from the record types.
-/

namespace PropMgmt

/-- A calendar date as the JS code reads it through getUTCFullYear /
getUTCMonth / getUTCDate: month is 0-based as in JS. -/
structure Date where
  year : Int
  month : Int
  day : Int
deriving DecidableEq, Repr

/-- Lexicographic date comparison, the semantics of comparing SQL `date`
values (and of comparing JS Date time values for dates). -/
def Date.le (a b : Date) : Bool :=
  a.year < b.year ||
    (a.year == b.year && (a.month < b.month ||
      (a.month == b.month && a.day ≤ b.day)))

/-- Row of the `companies` table (columns used by the handlers). -/
structure Company where
  id : Nat
  owner_id : Nat
deriving DecidableEq, Repr

/-- Row of the `properties` table.  `owner_id` and `company_id` are
nullable columns. -/
structure Property where
  id : Nat
  owner_id : Option Nat
  company_id : Option Nat
  address1 : String
  city : String
  state : String
deriving DecidableEq, Repr

/-- Row of the `tenants` table.  `property_id` is nullable. -/
structure Tenant where
  id : Nat
  name : String
  phone : String
  email : String
  property_id : Option Nat
deriving DecidableEq, Repr

/-- Row of the `leases` table. -/
structure Lease where
  id : Nat
  property_id : Nat
  tenant_id : Nat
  start_date : Date
  end_date : Date
  rent : ℚ
  deposit : Option ℚ
  document_filename : Option String
deriving DecidableEq, Repr

/-- Row of the `rent_payments` table. -/
structure RentPayment where
  id : Nat
  tenant_id : Nat
  payment_date : Date
  amount : ℚ
deriving DecidableEq, Repr

/-- Row of the `expenses` table.  Both foreign keys are nullable. -/
structure Expense where
  id : Nat
  date : Date
  property_id : Option Nat
  company_id : Option Nat
  category : String
  amount : ℚ
  description : String
deriving DecidableEq, Repr

/-- The relational store. -/
structure DB where
  companies : List Company
  properties : List Property
  tenants : List Tenant
  leases : List Lease
  rent_payments : List RentPayment
  expenses : List Expense
deriving DecidableEq, Repr

/-- Primary-key lookup, the embedding of `WHERE id = @id` (ids are an
identity column, so at most one row matches). -/
def lookupCompany (db : DB) (cid : Nat) : Option Company :=
  db.companies.find? (fun c => c.id == cid)

/-- Primary-key lookup in `properties`. -/
def lookupProperty (db : DB) (pid : Nat) : Option Property :=
  db.properties.find? (fun p => p.id == pid)

/-- The owner column of the company joined through a nullable
company_id: `LEFT JOIN companies c ON x.company_id = c.id` followed by
reading `c.owner_id`; NULL when the key is NULL or dangling. -/
def companyOwnerOf (db : DB) (cid : Option Nat) : Option Nat :=
  match cid with
  | none => none
  | some c => (lookupCompany db c).map Company.owner_id

/-- The ownership clause repeated in every property-scoped query:
`p.owner_id = @ownerId OR c.owner_id = @ownerId` with
`LEFT JOIN companies c ON p.company_id = c.id`. -/
def propertyAccessible (db : DB) (ownerId : Nat) (p : Property) : Bool :=
  p.owner_id == some ownerId || companyOwnerOf db p.company_id == some ownerId

/-- GET /api/properties: the rows of `properties` satisfying the
ownership clause (ORDER BY created_at is not modelled; the claims are
about membership). -/
def listProperties (db : DB) (ownerId : Nat) : List Property :=
  db.properties.filter (propertyAccessible db ownerId)

/-- The ownership check of PUT /api/properties/:id:
`SELECT p.id FROM properties p LEFT JOIN companies c ... WHERE p.id = @id
AND (p.owner_id = @ownerId OR c.owner_id = @ownerId)` is non-empty. -/
def propertyUpdateAllowed (db : DB) (ownerId pid : Nat) : Bool :=
  match lookupProperty db pid with
  | some p => propertyAccessible db ownerId p
  | none => false

/-- The ownership check of DELETE /api/properties/:id (the same query as
the update check). -/
def propertyDeleteAllowed (db : DB) (ownerId pid : Nat) : Bool :=
  match lookupProperty db pid with
  | some p => propertyAccessible db ownerId p
  | none => false

/-- The specification formulation of property accessibility: the owner
column matches, or company_id is set and the referenced company belongs
to the requesting owner. -/
def ownsPropertySpec (db : DB) (ownerId : Nat) (p : Property) : Prop :=
  p.owner_id = some ownerId ∨
    ∃ cid c, p.company_id = some cid ∧ lookupCompany db cid = some c ∧
      c.owner_id = ownerId

theorem propertyAccessible_iff_spec (db : DB) (ownerId : Nat) (p : Property) :
    propertyAccessible db ownerId p = true ↔ ownsPropertySpec db ownerId p := by
  unfold propertyAccessible ownsPropertySpec companyOwnerOf
  cases hc : p.company_id with
  | none =>
      simp [hc]
  | some cid =>
      cases hl : lookupCompany db cid with
      | none => simp [hc, hl]
      | some c =>
          simp [hc, hl]

/-- C1: a Property is accessible for read (list membership), update and
delete to exactly the owner ids that either match its own owner_id or
own the company referenced by its company_id. -/
theorem property_access_iff (db : DB) (ownerId : Nat) (p : Property)
    (hfind : lookupProperty db p.id = some p) :
    ((p ∈ listProperties db ownerId) ↔ ownsPropertySpec db ownerId p) ∧
    (propertyUpdateAllowed db ownerId p.id = true ↔ ownsPropertySpec db ownerId p) ∧
    (propertyDeleteAllowed db ownerId p.id = true ↔ ownsPropertySpec db ownerId p) := by
  have hmem : p ∈ db.properties := List.mem_of_find?_eq_some hfind
  refine ⟨?_, ?_, ?_⟩
  · rw [← propertyAccessible_iff_spec]
    unfold listProperties
    rw [List.mem_filter]
    exact ⟨fun h => h.2, fun h => ⟨hmem, h⟩⟩
  · unfold propertyUpdateAllowed
    rw [hfind]
    exact propertyAccessible_iff_spec db ownerId p
  · unfold propertyDeleteAllowed
    rw [hfind]
    exact propertyAccessible_iff_spec db ownerId p

/-- Sample company: id 10, owned by owner 1. -/
def coW : Company := ⟨10, 1⟩

/-- Sample property owned through the company path only. -/
def propW : Property :=
  { id := 21, owner_id := none, company_id := some 10,
    address1 := "12 Oak Ave", city := "Springfield", state := "IL" }

/-- Sample database used by the concrete witnesses. -/
def dbW : DB :=
  { companies := [coW], properties := [propW], tenants := [],
    leases := [], rent_payments := [], expenses := [] }

theorem property_access_iff_witness :
    ((propW ∈ listProperties dbW 1) ↔ ownsPropertySpec dbW 1 propW) ∧
    (propertyUpdateAllowed dbW 1 propW.id = true ↔ ownsPropertySpec dbW 1 propW) ∧
    (propertyDeleteAllowed dbW 1 propW.id = true ↔ ownsPropertySpec dbW 1 propW) :=
  property_access_iff dbW 1 propW (by rfl)

/-- The ownership clause of every tenant-scoped query:
`LEFT JOIN properties p ON t.property_id = p.id LEFT JOIN companies c ON
p.company_id = c.id ... (p.owner_id = @ownerId OR c.owner_id = @ownerId)`.
A NULL or dangling property_id leaves every joined column NULL, so the
clause is false. -/
def tenantAccessClause (db : DB) (ownerId : Nat) (t : Tenant) : Bool :=
  match t.property_id with
  | none => false
  | some pid =>
      match lookupProperty db pid with
      | none => false
      | some p => propertyAccessible db ownerId p

/-- GET /api/tenants: tenants satisfying the ownership clause (ORDER BY
created_at not modelled). -/
def listTenants (db : DB) (ownerId : Nat) : List Tenant :=
  db.tenants.filter (tenantAccessClause db ownerId)

/-- The ownership check of PUT /api/tenants/:id: the joined SELECT with
`t.id = @id AND (p.owner_id = @ownerId OR c.owner_id = @ownerId)` is
non-empty. -/
def tenantUpdateAllowed (db : DB) (ownerId tid : Nat) : Bool :=
  match db.tenants.find? (fun t => t.id == tid) with
  | some t => tenantAccessClause db ownerId t
  | none => false

/-- The ownership check of DELETE /api/tenants/:id (the same query as
the update check). -/
def tenantDeleteAllowed (db : DB) (ownerId tid : Nat) : Bool :=
  match db.tenants.find? (fun t => t.id == tid) with
  | some t => tenantAccessClause db ownerId t
  | none => false

/-- C2: a Tenant whose property_id is NULL is accessible to no owner:
it is absent from every owners tenant list, and both update and delete
are denied for every owner id. -/
theorem tenant_null_property_inaccessible (db : DB) (ownerId : Nat)
    (t : Tenant) (hnull : t.property_id = none) :
    t ∉ listTenants db ownerId ∧
    (db.tenants.find? (fun x => x.id == t.id) = some t →
      tenantUpdateAllowed db ownerId t.id = false ∧
      tenantDeleteAllowed db ownerId t.id = false) := by
  have hclause : tenantAccessClause db ownerId t = false := by
    unfold tenantAccessClause
    rw [hnull]
  constructor
  · intro hmem
    rw [listTenants, List.mem_filter] at hmem
    rw [hclause] at hmem
    exact Bool.false_ne_true hmem.2
  · intro hfind
    constructor
    · unfold tenantUpdateAllowed
      rw [hfind]
      exact hclause
    · unfold tenantDeleteAllowed
      rw [hfind]
      exact hclause

/-- Sample orphaned tenant: property_id NULL. -/
def tenantOrphanW : Tenant :=
  { id := 30, name := "Alice", phone := "555-0100", email := "a@x.io",
    property_id := none }

/-- Database holding the orphaned tenant. -/
def dbTenantW : DB :=
  { companies := [coW], properties := [propW], tenants := [tenantOrphanW],
    leases := [], rent_payments := [], expenses := [] }

theorem tenant_null_property_inaccessible_witness :
    tenantOrphanW ∉ listTenants dbTenantW 1 ∧
    tenantUpdateAllowed dbTenantW 1 tenantOrphanW.id = false ∧
    tenantDeleteAllowed dbTenantW 1 tenantOrphanW.id = false := by
  have h := tenant_null_property_inaccessible dbTenantW 1 tenantOrphanW rfl
  exact ⟨h.1, h.2 (by rfl)⟩

/-- Response of a create handler: the 200 body with the inserted id, or
the 403 Forbidden error. -/
inductive CreateResp where
  | ok (id : Nat)
  | forbidden
deriving DecidableEq, Repr

/-- The property-ownership pre-check shared by POST /api/tenants,
POST /api/leases and POST /api/expenses: `SELECT p.id FROM properties p
LEFT JOIN companies c ON p.company_id = c.id WHERE p.id = @propertyId
AND (p.owner_id = @ownerId OR c.owner_id = @ownerId)` is non-empty. -/
def propertyCheckPasses (db : DB) (ownerId pid : Nat) : Bool :=
  match lookupProperty db pid with
  | some p => propertyAccessible db ownerId p
  | none => false

/-- POST /api/leases: verify property ownership, then INSERT.  On the
403 path the handler returns before the INSERT statement, so the store
is returned unchanged. -/
def postLease (db : DB) (ownerId newId property_id tenant_id : Nat)
    (start_date end_date : Date) (rent : ℚ) (deposit : Option ℚ) :
    CreateResp × DB :=
  if propertyCheckPasses db ownerId property_id then
    (CreateResp.ok newId,
      { db with leases := db.leases ++
          [{ id := newId, property_id := property_id, tenant_id := tenant_id,
             start_date := start_date, end_date := end_date, rent := rent,
             deposit := deposit, document_filename := none }] })
  else (CreateResp.forbidden, db)

/-- C3: when the requested property_id does not resolve to a Property
accessible to the caller, lease creation answers Forbidden and leaves
the leases table unchanged. -/
theorem post_lease_forbidden_no_insert (db : DB)
    (ownerId newId property_id tenant_id : Nat)
    (start_date end_date : Date) (rent : ℚ) (deposit : Option ℚ)
    (hna : ∀ p, lookupProperty db property_id = some p →
      propertyAccessible db ownerId p = false) :
    postLease db ownerId newId property_id tenant_id start_date end_date
        rent deposit = (CreateResp.forbidden, db) := by
  have hchk : propertyCheckPasses db ownerId property_id = false := by
    unfold propertyCheckPasses
    cases hl : lookupProperty db property_id with
    | none => rfl
    | some p => exact hna p hl
  unfold postLease
  rw [hchk]
  rfl

theorem post_lease_forbidden_no_insert_witness :
    postLease dbW 99 77 21 30 ⟨2024, 0, 1⟩ ⟨2026, 0, 1⟩ 1000 none =
      (CreateResp.forbidden, dbW) :=
  post_lease_forbidden_no_insert dbW 99 77 21 30 ⟨2024, 0, 1⟩ ⟨2026, 0, 1⟩
    1000 none (by decide)

/-- The document-storage capability as DELETE /api/leases/:id sees it:
either Azure blob storage or the local uploads directory, holding a set
of file names; deleteThrows stubs a storage layer whose delete operation
throws. -/
structure Storage where
  useAzure : Bool
  files : List String
  deleteThrows : Bool
deriving DecidableEq, Repr

/-- Response of DELETE /api/leases/:id: 200, 403, or the 500 produced by
the outer catch when an uncaught exception escapes the handler body. -/
inductive DeleteResp where
  | deleted
  | forbidden
  | serverError
deriving DecidableEq, Repr

/-- The ownership check of the lease routes: `SELECT l.id,
l.document_filename FROM leases l LEFT JOIN properties p ON l.property_id
= p.id LEFT JOIN companies c ON p.company_id = c.id WHERE l.id = @id AND
(p.owner_id = @ownerId OR c.owner_id = @ownerId)`. -/
def leaseOwnerCheck (db : DB) (ownerId lid : Nat) : Option Lease :=
  match db.leases.find? (fun l => l.id == lid) with
  | none => none
  | some l =>
      match lookupProperty db l.property_id with
      | none => none
      | some p => if propertyAccessible db ownerId p then some l else none

/-- `DELETE FROM leases WHERE id = @id`. -/
def removeLease (db : DB) (lid : Nat) : DB :=
  { db with leases := db.leases.filter (fun l => l.id != lid) }

/-- The Azure branch of the document cleanup: `try {
blobClient.deleteIfExists() } catch (error) { console.error(...) }` — a
throwing client is caught and logged, leaving the blob in place. -/
def deleteBlobAzure (st : Storage) (name : String) : Storage :=
  if st.deleteThrows then st
  else { st with files := st.files.filter (fun f => f != name) }

/-- The local branch of the document cleanup: `if (fs.existsSync(filePath))
fs.unlinkSync(filePath)` — there is no try/catch here, so a throwing
unlink (result none) propagates to the outer catch of the handler. -/
def deleteFileLocal (st : Storage) (name : String) : Option Storage :=
  if st.files.contains name then
    if st.deleteThrows then none
    else some { st with files := st.files.filter (fun f => f != name) }
  else some st

/-- DELETE /api/leases/:id: ownership check, best-effort (Azure) or
unguarded (local) document cleanup, then row deletion.  An exception on
the local path reaches the outer catch before the DELETE statement runs,
so the row survives and the response is a 500. -/
def deleteLease (db : DB) (st : Storage) (ownerId lid : Nat) :
    DeleteResp × DB × Storage :=
  match leaseOwnerCheck db ownerId lid with
  | none => (DeleteResp.forbidden, db, st)
  | some l =>
      match l.document_filename with
      | none => (DeleteResp.deleted, removeLease db lid, st)
      | some name =>
          if st.useAzure then
            (DeleteResp.deleted, removeLease db lid, deleteBlobAzure st name)
          else
            match deleteFileLocal st name with
            | none => (DeleteResp.serverError, db, st)
            | some st2 => (DeleteResp.deleted, removeLease db lid, st2)

/-- A lease with an attached document, living on propW. -/
def leaseDocW : Lease :=
  { id := 40, property_id := 21, tenant_id := 30,
    start_date := ⟨2024, 2, 1⟩, end_date := ⟨2026, 2, 1⟩, rent := 1000,
    deposit := none, document_filename := some "lease40.pdf" }

/-- Database holding the documented lease. -/
def dbLeaseW : DB :=
  { companies := [coW], properties := [propW], tenants := [tenantOrphanW],
    leases := [leaseDocW], rent_payments := [], expenses := [] }

/-- Local storage whose unlink throws, holding the attached document. -/
def stLocalThrowW : Storage :=
  { useAzure := false, files := ["lease40.pdf"], deleteThrows := true }

/-- C4 counterexample: with local-disk storage and a throwing unlink,
deleting a documented lease answers 500 and the lease row is NOT
deleted, contradicting the claim that a storage-deletion failure is only
logged and the row still removed. -/
theorem lease_delete_local_throw_keeps_row :
    (deleteLease dbLeaseW stLocalThrowW 1 40).1 = DeleteResp.serverError ∧
    leaseDocW ∈ (deleteLease dbLeaseW stLocalThrowW 1 40).2.1.leases ∧
    leaseDocW.document_filename = some "lease40.pdf" := by
  refine ⟨by rfl, ?_, rfl⟩
  show leaseDocW ∈ dbLeaseW.leases
  exact List.mem_singleton.mpr rfl

/-- C4 amended: for an accessible lease with an attached document —
under Azure blob storage the row is always deleted, even when the blob
deletion throws (the failure is only logged); when the storage delete
succeeds the document is removed from storage; but under local-disk
storage a throwing unlink aborts the request with a 500 and the lease
row is not deleted. -/
theorem lease_delete_document_behavior (db : DB) (st : Storage)
    (ownerId lid : Nat) (l : Lease) (name : String)
    (hl : leaseOwnerCheck db ownerId lid = some l)
    (hdoc : l.document_filename = some name) :
    (st.useAzure = true →
      (deleteLease db st ownerId lid).1 = DeleteResp.deleted ∧
      (deleteLease db st ownerId lid).2.1 = removeLease db lid) ∧
    (st.deleteThrows = false →
      (deleteLease db st ownerId lid).1 = DeleteResp.deleted ∧
      (deleteLease db st ownerId lid).2.1 = removeLease db lid ∧
      name ∉ (deleteLease db st ownerId lid).2.2.files) ∧
    (st.useAzure = false → st.deleteThrows = true →
      st.files.contains name = true →
      (deleteLease db st ownerId lid).1 = DeleteResp.serverError ∧
      (deleteLease db st ownerId lid).2.1 = db) := by
  refine ⟨?_, ?_, ?_⟩
  · intro haz
    simp [deleteLease, hl, hdoc, haz]
  · intro hnothrow
    cases haz : st.useAzure with
    | true =>
        simp [deleteLease, hl, hdoc, haz, deleteBlobAzure, hnothrow]
    | false =>
        cases hmem : st.files.contains name with
        | true =>
            have hmem2 : name ∈ st.files := by simpa using hmem
            simp [deleteLease, hl, hdoc, haz, deleteFileLocal, hmem2, hnothrow]
        | false =>
            have hmem2 : name ∉ st.files := by simpa using hmem
            simp [deleteLease, hl, hdoc, haz, deleteFileLocal, hmem2, hnothrow]
  · intro haz hthrow hmem
    have hmem2 : name ∈ st.files := by simpa using hmem
    simp [deleteLease, hl, hdoc, haz, deleteFileLocal, hmem2, hthrow]

/-- Azure storage whose blob delete throws. -/
def stAzureThrowW : Storage :=
  { useAzure := true, files := ["lease40.pdf"], deleteThrows := true }

theorem lease_delete_document_behavior_witness :
    ((deleteLease dbLeaseW stAzureThrowW 1 40).1 = DeleteResp.deleted ∧
      (deleteLease dbLeaseW stAzureThrowW 1 40).2.1 = removeLease dbLeaseW 40) ∧
    ((deleteLease dbLeaseW stLocalThrowW 1 40).1 = DeleteResp.serverError ∧
      (deleteLease dbLeaseW stLocalThrowW 1 40).2.1 = dbLeaseW) :=
  ⟨(lease_delete_document_behavior dbLeaseW stAzureThrowW 1 40 leaseDocW
      "lease40.pdf" (by rfl) rfl).1 rfl,
   (lease_delete_document_behavior dbLeaseW stLocalThrowW 1 40 leaseDocW
      "lease40.pdf" (by rfl) rfl).2.2 rfl rfl (by rfl)⟩

/-- The three-way ownership clause of the expense queries:
`LEFT JOIN properties p ON e.property_id = p.id LEFT JOIN companies c ON
e.company_id = c.id LEFT JOIN companies pc ON p.company_id = pc.id ...
(c.owner_id = @ownerId OR p.owner_id = @ownerId OR pc.owner_id =
@ownerId)`. -/
def expenseAccessClause (db : DB) (ownerId : Nat) (e : Expense) : Bool :=
  companyOwnerOf db e.company_id == some ownerId ||
    (match e.property_id with
     | none => false
     | some pid =>
         match lookupProperty db pid with
         | none => false
         | some p => propertyAccessible db ownerId p)

/-- GET /api/expenses: expenses satisfying the three-way ownership
clause (ORDER BY date not modelled). -/
def listExpenses (db : DB) (ownerId : Nat) : List Expense :=
  db.expenses.filter (expenseAccessClause db ownerId)

/-- The ownership check of PUT /api/expenses/:id. -/
def expenseUpdateAllowed (db : DB) (ownerId eid : Nat) : Bool :=
  match db.expenses.find? (fun e => e.id == eid) with
  | some e => expenseAccessClause db ownerId e
  | none => false

/-- The ownership check of DELETE /api/expenses/:id (the same query as
the update check). -/
def expenseDeleteAllowed (db : DB) (ownerId eid : Nat) : Bool :=
  match db.expenses.find? (fun e => e.id == eid) with
  | some e => expenseAccessClause db ownerId e
  | none => false

/-- The company-ownership pre-check of POST /api/expenses:
`SELECT id FROM companies WHERE id = @companyId AND owner_id = @ownerId`
is non-empty. -/
def companyCheckPasses (db : DB) (ownerId cid : Nat) : Bool :=
  match lookupCompany db cid with
  | some c => c.owner_id == ownerId
  | none => false

/-- POST /api/expenses: the property check runs only `if (property_id)`,
the company check only `if (company_id)`; with both NULL no ownership
check runs and the INSERT is executed unconditionally. -/
def postExpense (db : DB) (ownerId newId : Nat) (date : Date)
    (property_id company_id : Option Nat) (category : String)
    (amount : ℚ) (description : String) : CreateResp × DB :=
  if (match property_id with
      | some pid => !propertyCheckPasses db ownerId pid
      | none => false) then
    (CreateResp.forbidden, db)
  else if (match company_id with
      | some cid => !companyCheckPasses db ownerId cid
      | none => false) then
    (CreateResp.forbidden, db)
  else
    (CreateResp.ok newId,
      { db with expenses := db.expenses ++
          [{ id := newId, date := date, property_id := property_id,
             company_id := company_id, category := category,
             amount := amount, description := description }] })

/-- C10: an Expense created with neither property_id nor company_id is
accepted for every authenticated owner without any ownership check, and
any such expense is invisible to every owner: the access clause is
false for every owner id, it is in no owners expense list, and update
and delete are denied for every owner id. -/
theorem expense_no_refs_orphan (db : DB) (ownerId newId : Nat)
    (date : Date) (category : String) (amount : ℚ) (description : String)
    (e : Expense) (oid : Nat)
    (hp : e.property_id = none) (hc : e.company_id = none) :
    (postExpense db ownerId newId date none none category amount
        description).1 = CreateResp.ok newId ∧
    (postExpense db ownerId newId date none none category amount
        description).2.expenses = db.expenses ++
      [{ id := newId, date := date, property_id := none,
         company_id := none, category := category, amount := amount,
         description := description }] ∧
    expenseAccessClause db oid e = false ∧
    e ∉ listExpenses db oid ∧
    (db.expenses.find? (fun x => x.id == e.id) = some e →
      expenseUpdateAllowed db oid e.id = false ∧
      expenseDeleteAllowed db oid e.id = false) := by
  have hclause : expenseAccessClause db oid e = false := by
    simp [expenseAccessClause, companyOwnerOf, hp, hc]
  refine ⟨rfl, rfl, hclause, ?_, ?_⟩
  · intro hmem
    rw [listExpenses, List.mem_filter, hclause] at hmem
    exact Bool.false_ne_true hmem.2
  · intro hfind
    constructor
    · unfold expenseUpdateAllowed
      rw [hfind]
      exact hclause
    · unfold expenseDeleteAllowed
      rw [hfind]
      exact hclause

/-- Sample expense with neither property_id nor company_id. -/
def expenseOrphanW : Expense :=
  { id := 50, date := ⟨2024, 5, 15⟩, property_id := none,
    company_id := none, category := "Repairs", amount := 250,
    description := "hall light" }

/-- Database holding the orphaned expense. -/
def dbExpenseW : DB :=
  { companies := [coW], properties := [propW], tenants := [],
    leases := [], rent_payments := [], expenses := [expenseOrphanW] }

theorem expense_no_refs_orphan_witness :
    (postExpense dbExpenseW 1 51 ⟨2024, 5, 16⟩ none none "Repairs" 99
        "bulb").1 = CreateResp.ok 51 ∧
    (postExpense dbExpenseW 1 51 ⟨2024, 5, 16⟩ none none "Repairs" 99
        "bulb").2.expenses = dbExpenseW.expenses ++
      [{ id := 51, date := ⟨2024, 5, 16⟩, property_id := none,
         company_id := none, category := "Repairs", amount := 99,
         description := "bulb" }] ∧
    expenseAccessClause dbExpenseW 1 expenseOrphanW = false ∧
    expenseOrphanW ∉ listExpenses dbExpenseW 1 ∧
    (dbExpenseW.expenses.find? (fun x => x.id == expenseOrphanW.id) =
        some expenseOrphanW →
      expenseUpdateAllowed dbExpenseW 1 expenseOrphanW.id = false ∧
      expenseDeleteAllowed dbExpenseW 1 expenseOrphanW.id = false) :=
  expense_no_refs_orphan dbExpenseW 1 51 ⟨2024, 5, 16⟩ "Repairs" 99 "bulb"
    expenseOrphanW 1 rfl rfl

/-- The month-underflow loop of the unpaid-rent report, written with a
structural fuel parameter: each iteration adds 12 to the month, so
m.natAbs iterations always suffice and the fuel never runs out before
the loop condition fails. -/
def normalizeMonthAux : Nat → Int → Int → Int × Int
  | 0, m, y => (m, y)
  | Nat.succ fuel, m, y =>
      if m < 0 then normalizeMonthAux fuel (m + 12) (y - 1) else (m, y)

/-- `while (checkMonth < 0) { checkMonth += 12; checkYear -= 1 }` —
the pair is (checkMonth, checkYear). -/
def normalizeMonth (m y : Int) : Int × Int :=
  normalizeMonthAux m.natAbs m y

theorem normalizeMonthAux_linear (fuel : Nat) :
    ∀ m y : Int, (normalizeMonthAux fuel m y).2 * 12 +
      (normalizeMonthAux fuel m y).1 = y * 12 + m := by
  induction fuel with
  | zero => intro m y; rfl
  | succ fuel ih =>
      intro m y
      unfold normalizeMonthAux
      by_cases h : m < 0
      · rw [if_pos h, ih]
        ring
      · rw [if_neg h]

theorem normalizeMonthAux_nonneg (fuel : Nat) :
    ∀ m y : Int, -(12 * (fuel : Int)) ≤ m →
      0 ≤ (normalizeMonthAux fuel m y).1 := by
  induction fuel with
  | zero =>
      intro m y h
      simpa [normalizeMonthAux] using by omega
  | succ fuel ih =>
      intro m y h
      unfold normalizeMonthAux
      by_cases hm : m < 0
      · rw [if_pos hm]
        apply ih
        push_cast at h ⊢
        omega
      · rw [if_neg hm]
        omega

theorem normalizeMonthAux_lt (fuel : Nat) :
    ∀ m y : Int, m < 12 → (normalizeMonthAux fuel m y).1 < 12 := by
  induction fuel with
  | zero => intro m y h; exact h
  | succ fuel ih =>
      intro m y h
      unfold normalizeMonthAux
      by_cases hm : m < 0
      · rw [if_pos hm]
        exact ih (m + 12) (y - 1) (by omega)
      · rw [if_neg hm]
        exact h

/-- The loop it implements: the result of normalizeMonth denotes the
same absolute month (year * 12 + month is preserved), its month part is
non-negative, and stays below 12 whenever the input month was. -/
theorem normalizeMonth_loop_spec (m y : Int) :
    (normalizeMonth m y).2 * 12 + (normalizeMonth m y).1 = y * 12 + m ∧
    0 ≤ (normalizeMonth m y).1 ∧
    (m < 12 → (normalizeMonth m y).1 < 12) := by
  refine ⟨normalizeMonthAux_linear _ m y, ?_, fun h =>
    normalizeMonthAux_lt _ m y h⟩
  apply normalizeMonthAux_nonneg
  omega

/-- The month the iteration i of the unpaid-rent loop targets:
`checkMonth = currentMonth - i` followed by the underflow loop; the pair
is (checkMonth, checkYear). -/
def checkedMonth (today : Date) (i : Nat) : Int × Int :=
  normalizeMonth (today.month - (i : Int)) today.year

/-- The skip condition of the unpaid-rent loop:
`checkYear < leaseStartYear || (checkYear === leaseStartYear &&
checkMonth < leaseStartMonth)`. -/
def beforeLeaseStart (startYear startMonth y m : Int) : Bool :=
  y < startYear || (y == startYear && m < startMonth)

/-- One row of the active-leases query of GET /api/reports/unpaid-rent
(the selected columns). -/
structure LeaseRow where
  lease_id : Nat
  expected_rent : ℚ
  start_date : Date
  end_date : Date
  tenant_id : Nat
  tenant_name : String
  tenant_phone : String
  tenant_email : String
  property_address : String
  city : String
  state : String
deriving DecidableEq, Repr

/-- The per-month payment sum: `payments.filter(p => month and year of
payment_date match the target).reduce((sum, p) => sum +
parseFloat(p.amount), 0)`.  The decimal(18,2) amounts are embedded as
rationals. -/
def paidInMonth (payments : List RentPayment) (checkYear checkMonth : Int) : ℚ :=
  (payments.filter (fun p =>
      p.payment_date.month == checkMonth && p.payment_date.year == checkYear)).foldl
    (fun sum p => sum + p.amount) 0

/-- One unpaid-month record pushed by the report (month label string is
represented by the (year, month) pair behind month_date; the
locale-formatted month name carries the same data). -/
structure UnpaidRec where
  tenant_id : Nat
  tenant_name : String
  tenant_phone : String
  tenant_email : String
  property_address : String
  year : Int
  month : Int
  expected_rent : ℚ
  amount_paid : ℚ
  amount_due : ℚ
  status : String
deriving DecidableEq, Repr

/-- The body of iteration i of the unpaid-rent month loop for one lease
row: skip months before the lease start, sum the payments of the target
month, and emit a record when the sum falls short of the rent. -/
def monthEntry (today : Date) (row : LeaseRow) (payments : List RentPayment)
    (i : Nat) : Option UnpaidRec :=
  let my := checkedMonth today i
  if beforeLeaseStart row.start_date.year row.start_date.month my.2 my.1 then
    none
  else
    let totalPaidThisMonth := paidInMonth payments my.2 my.1
    let expectedRent := row.expected_rent
    if totalPaidThisMonth < expectedRent then
      some { tenant_id := row.tenant_id, tenant_name := row.tenant_name,
             tenant_phone := row.tenant_phone,
             tenant_email := row.tenant_email,
             property_address := row.property_address ++ ", " ++ row.city
               ++ ", " ++ row.state,
             year := my.2, month := my.1,
             expected_rent := expectedRent,
             amount_paid := totalPaidThisMonth,
             amount_due := expectedRent - totalPaidThisMonth,
             status := if totalPaidThisMonth == 0 then "Not Paid" else "Partial" }
    else none

/-- The 12-iteration month loop (`for (let i = 0; i < 12; i++)`) for one
lease row. -/
def unpaidForLease (today : Date) (row : LeaseRow)
    (payments : List RentPayment) : List UnpaidRec :=
  (List.range 12).filterMap (monthEntry today row payments)

theorem monthEntry_some_inv (today : Date) (row : LeaseRow)
    (payments : List RentPayment) (i : Nat) (r : UnpaidRec)
    (h : monthEntry today row payments i = some r) :
    beforeLeaseStart row.start_date.year row.start_date.month
        (checkedMonth today i).2 (checkedMonth today i).1 = false ∧
    paidInMonth payments (checkedMonth today i).2 (checkedMonth today i).1 <
      row.expected_rent ∧
    r.year = (checkedMonth today i).2 ∧
    r.month = (checkedMonth today i).1 ∧
    r.expected_rent = row.expected_rent ∧
    r.amount_paid = paidInMonth payments (checkedMonth today i).2
      (checkedMonth today i).1 ∧
    r.amount_due = row.expected_rent -
      paidInMonth payments (checkedMonth today i).2 (checkedMonth today i).1 ∧
    r.status = (if paidInMonth payments (checkedMonth today i).2
        (checkedMonth today i).1 = 0 then "Not Paid" else "Partial") := by
  simp only [monthEntry] at h
  cases hb : beforeLeaseStart row.start_date.year row.start_date.month
      (checkedMonth today i).2 (checkedMonth today i).1 with
  | true =>
      rw [hb] at h
      simp at h
  | false =>
      rw [hb] at h
      by_cases hlt : paidInMonth payments (checkedMonth today i).2
          (checkedMonth today i).1 < row.expected_rent
      · rw [if_pos hlt] at h
        cases h
        refine ⟨rfl, hlt, rfl, rfl, rfl, rfl, rfl, ?_⟩
        by_cases h0 : paidInMonth payments (checkedMonth today i).2
            (checkedMonth today i).1 = 0
        · simp [h0]
        · simp [h0]
      · rw [if_neg hlt] at h
        simp at h

/-- C6: iteration i of the month loop is skipped exactly when the
target month (checkMonth, checkYear) precedes the lease start, year
compared first and then month: a preceding month yields no record for
any payment history; a non-preceding month is dropped only when the
month is fully paid; and no emitted record carries a month before the
lease start. -/
theorem unpaid_skip_iff_precedes (today : Date) (row : LeaseRow)
    (payments : List RentPayment) :
    (∀ i : Nat,
      ((checkedMonth today i).2 < row.start_date.year ∨
        ((checkedMonth today i).2 = row.start_date.year ∧
          (checkedMonth today i).1 < row.start_date.month)) →
      monthEntry today row payments i = none) ∧
    (∀ i : Nat,
      ¬((checkedMonth today i).2 < row.start_date.year ∨
        ((checkedMonth today i).2 = row.start_date.year ∧
          (checkedMonth today i).1 < row.start_date.month)) →
      (monthEntry today row payments i = none ↔
        row.expected_rent ≤
          paidInMonth payments (checkedMonth today i).2 (checkedMonth today i).1)) ∧
    (∀ r ∈ unpaidForLease today row payments,
      ¬(r.year < row.start_date.year ∨
        (r.year = row.start_date.year ∧ r.month < row.start_date.month))) := by
  have hbool : ∀ y m,
      beforeLeaseStart row.start_date.year row.start_date.month y m = true ↔
      (y < row.start_date.year ∨
        (y = row.start_date.year ∧ m < row.start_date.month)) := by
    intro y m
    unfold beforeLeaseStart
    simp [decide_eq_true_eq]
  refine ⟨?_, ?_, ?_⟩
  · intro i hpre
    simp only [monthEntry]
    rw [if_pos ((hbool _ _).mpr hpre)]
  · intro i hpre
    have hb : beforeLeaseStart row.start_date.year row.start_date.month
        (checkedMonth today i).2 (checkedMonth today i).1 = false := by
      cases hb2 : beforeLeaseStart row.start_date.year row.start_date.month
          (checkedMonth today i).2 (checkedMonth today i).1 with
      | true => exact absurd ((hbool _ _).mp hb2) hpre
      | false => rfl
    simp only [monthEntry]
    rw [hb]
    simp only [Bool.false_eq_true, if_false]
    by_cases hlt : paidInMonth payments (checkedMonth today i).2
        (checkedMonth today i).1 < row.expected_rent
    · rw [if_pos hlt]
      simp [not_le.mpr hlt]
    · rw [if_neg hlt]
      simp [not_lt.mp hlt]
  · intro r hr
    unfold unpaidForLease at hr
    rw [List.mem_filterMap] at hr
    obtain ⟨i, -, hsome⟩ := hr
    obtain ⟨hb, -, hy, hm, -⟩ := monthEntry_some_inv today row payments i r hsome
    rw [hy, hm]
    intro hpre
    rw [(hbool _ _).mpr hpre] at hb
    simp at hb

/-- Today used by the unpaid-rent witnesses: 2025-06-15 (June, JS month
index 5). -/
def todayW : Date := ⟨2025, 5, 15⟩

/-- Lease row of the testable-property example: lease starting
2024-03-01 (JS month index 2) with rent 1000. -/
def rowW : LeaseRow :=
  { lease_id := 40, expected_rent := 1000,
    start_date := ⟨2024, 2, 1⟩, end_date := ⟨2026, 2, 1⟩,
    tenant_id := 30, tenant_name := "Alice", tenant_phone := "555-0100",
    tenant_email := "a@x.io", property_address := "12 Oak Ave",
    city := "Springfield", state := "IL" }

/-- A lease row starting 2025-04-01, so that iteration 3 of the loop
(March 2025) precedes the lease start. -/
def rowLateW : LeaseRow :=
  { rowW with start_date := ⟨2025, 3, 1⟩ }

theorem unpaid_skip_iff_precedes_witness :
    monthEntry todayW rowLateW [] 3 = none ∧
    (monthEntry todayW rowW [] 2 = none ↔
      (1000 : ℚ) ≤ paidInMonth [] (checkedMonth todayW 2).2
        (checkedMonth todayW 2).1) ∧
    (∀ r ∈ unpaidForLease todayW rowLateW [],
      ¬(r.year < (2025 : Int) ∨ (r.year = 2025 ∧ r.month < 3))) :=
  ⟨(unpaid_skip_iff_precedes todayW rowLateW []).1 3 (by decide),
   (unpaid_skip_iff_precedes todayW rowW []).2.1 2 (by decide),
   (unpaid_skip_iff_precedes todayW rowLateW []).2.2⟩

/-- C7: for a considered (non-skipped) month, a record is emitted
exactly when the payment sum of that tenant for that calendar month
falls strictly short of the rent, and the record carries amount_paid =
the sum, amount_due = rent minus the sum, and status Not Paid when the
sum is 0, Partial otherwise. -/
theorem unpaid_record_exact (today : Date) (row : LeaseRow)
    (payments : List RentPayment) (i : Nat)
    (hnb : beforeLeaseStart row.start_date.year row.start_date.month
      (checkedMonth today i).2 (checkedMonth today i).1 = false) :
    ((∃ r, monthEntry today row payments i = some r) ↔
      paidInMonth payments (checkedMonth today i).2 (checkedMonth today i).1 <
        row.expected_rent) ∧
    (∀ r, monthEntry today row payments i = some r →
      r.expected_rent = row.expected_rent ∧
      r.amount_paid = paidInMonth payments (checkedMonth today i).2
        (checkedMonth today i).1 ∧
      r.amount_due = row.expected_rent -
        paidInMonth payments (checkedMonth today i).2 (checkedMonth today i).1 ∧
      (paidInMonth payments (checkedMonth today i).2 (checkedMonth today i).1
          = 0 → r.status = "Not Paid") ∧
      (paidInMonth payments (checkedMonth today i).2 (checkedMonth today i).1
          ≠ 0 → r.status = "Partial")) := by
  constructor
  · constructor
    · rintro ⟨r, hr⟩
      exact (monthEntry_some_inv today row payments i r hr).2.1
    · intro hlt
      have hsome : (monthEntry today row payments i).isSome = true := by
        simp only [monthEntry]
        rw [hnb]
        simp only [Bool.false_eq_true, if_false]
        rw [if_pos hlt]
        rfl
      obtain ⟨r, hr⟩ := Option.isSome_iff_exists.mp hsome
      exact ⟨r, hr⟩
  · intro r hr
    obtain ⟨-, -, -, -, hrent, hpaid, hdue, hstat⟩ :=
      monthEntry_some_inv today row payments i r hr
    refine ⟨hrent, hpaid, hdue, ?_, ?_⟩
    · intro h0
      rw [hstat, if_pos h0]
    · intro h0
      rw [hstat, if_neg h0]

/-- Payment of 600 against rent 1000 dated 2025-06-05 (the month
iteration 0 targets from todayW). -/
def partialPaymentW : RentPayment :=
  { id := 60, tenant_id := 30, payment_date := ⟨2025, 5, 5⟩, amount := 600 }

theorem unpaid_record_exact_witness :
    ((∃ r, monthEntry todayW rowW [partialPaymentW] 0 = some r) ↔
      paidInMonth [partialPaymentW] (checkedMonth todayW 0).2
        (checkedMonth todayW 0).1 < (1000 : ℚ)) ∧
    (∀ r, monthEntry todayW rowW [partialPaymentW] 0 = some r →
      r.expected_rent = (1000 : ℚ) ∧
      r.amount_paid = paidInMonth [partialPaymentW] (checkedMonth todayW 0).2
        (checkedMonth todayW 0).1 ∧
      r.amount_due = (1000 : ℚ) - paidInMonth [partialPaymentW]
        (checkedMonth todayW 0).2 (checkedMonth todayW 0).1 ∧
      (paidInMonth [partialPaymentW] (checkedMonth todayW 0).2
          (checkedMonth todayW 0).1 = 0 → r.status = "Not Paid") ∧
      (paidInMonth [partialPaymentW] (checkedMonth todayW 0).2
          (checkedMonth todayW 0).1 ≠ 0 → r.status = "Partial")) :=
  unpaid_record_exact todayW rowW [partialPaymentW] 0 (by decide)

/-- The active-leases query of GET /api/reports/unpaid-rent: INNER JOIN
tenants and properties, LEFT JOIN companies, `end_date >= today AND
start_date <= today` and the ownership clause (the ORDER BY t.name of
the fetch is not modelled: the final sort below determines the order the
claims speak about). -/
def activeLeaseRows (db : DB) (ownerId : Nat) (today : Date) : List LeaseRow :=
  db.leases.filterMap (fun l =>
    match db.tenants.find? (fun t => t.id == l.tenant_id) with
    | none => none
    | some t =>
        match lookupProperty db l.property_id with
        | none => none
        | some p =>
            if Date.le today l.end_date && Date.le l.start_date today &&
                propertyAccessible db ownerId p then
              some { lease_id := l.id, expected_rent := l.rent,
                     start_date := l.start_date, end_date := l.end_date,
                     tenant_id := t.id, tenant_name := t.name,
                     tenant_phone := t.phone, tenant_email := t.email,
                     property_address := p.address1, city := p.city,
                     state := p.state }
            else none)

/-- The per-tenant payment fetch: `SELECT ... FROM rent_payments WHERE
tenant_id = @tenantId` (its ORDER BY does not affect the sum). -/
def paymentsForTenant (db : DB) (tid : Nat) : List RentPayment :=
  db.rent_payments.filter (fun p => p.tenant_id == tid)

/-- The unpaidRentList array as built by the nested loops, before the
final sort. -/
def rawUnpaidList (db : DB) (ownerId : Nat) (today : Date) : List UnpaidRec :=
  (activeLeaseRows db ownerId today).flatMap (fun row =>
    unpaidForLease today row (paymentsForTenant db row.tenant_id))

/-- The time value of the month_date field (Date.UTC(checkYear,
checkMonth, 1)) is monotone in, and determined by, year * 12 + month. -/
def monthKey (r : UnpaidRec) : Int := r.year * 12 + r.month

/-- The order imposed by the sort comparator: strictly more recent
month first, ties by tenant name ascending (localeCompare embedded as
lexicographic string order). -/
def recOrder (a b : UnpaidRec) : Prop :=
  monthKey b < monthKey a ∨
    (monthKey a = monthKey b ∧ a.tenant_name ≤ b.tenant_name)

instance recOrder.decidableRel : DecidableRel recOrder := fun a b => by
  unfold recOrder
  infer_instance

instance recOrder.isTotal : IsTotal UnpaidRec recOrder := by
  constructor
  intro a b
  rcases lt_trichotomy (monthKey a) (monthKey b) with h | h | h
  · exact Or.inr (Or.inl h)
  · rcases le_total a.tenant_name b.tenant_name with hn | hn
    · exact Or.inl (Or.inr ⟨h, hn⟩)
    · exact Or.inr (Or.inr ⟨h.symm, hn⟩)
  · exact Or.inl (Or.inl h)

instance recOrder.isTrans : IsTrans UnpaidRec recOrder := by
  constructor
  intro a b c hab hbc
  rcases hab with hab | ⟨hab, han⟩
  · rcases hbc with hbc | ⟨hbc, -⟩
    · exact Or.inl (hbc.trans hab)
    · exact Or.inl (hbc ▸ hab)
  · rcases hbc with hbc | ⟨hbc, hbn⟩
    · exact Or.inl (by omega)
    · exact Or.inr ⟨hab.trans hbc, han.trans hbn⟩

/-- The final `unpaidRentList.sort(comparator)`: a comparison sort under
the comparator order (JS Array sort with a consistent comparator). -/
def sortUnpaid (l : List UnpaidRec) : List UnpaidRec :=
  List.insertionSort recOrder l

/-- GET /api/reports/unpaid-rent: build the list, then sort it. -/
def unpaidRentReport (db : DB) (ownerId : Nat) (today : Date) :
    List UnpaidRec :=
  sortUnpaid (rawUnpaidList db ownerId today)

/-- C8: the unpaid-rent response is a permutation of the records built
by the month loops, arranged so that every record pair in order has a
strictly more recent month first, or the same month with tenant names
in ascending lexicographic order. -/
theorem unpaid_report_sorted (db : DB) (ownerId : Nat) (today : Date) :
    (unpaidRentReport db ownerId today).Pairwise (fun a b =>
      monthKey b < monthKey a ∨
        (monthKey a = monthKey b ∧ a.tenant_name ≤ b.tenant_name)) ∧
    (unpaidRentReport db ownerId today).Perm (rawUnpaidList db ownerId today) := by
  constructor
  · exact List.sorted_insertionSort recOrder (rawUnpaidList db ownerId today)
  · exact List.perm_insertionSort recOrder (rawUnpaidList db ownerId today)

/-- Number.prototype.toFixed(1) embedded on rationals: rounding to one
fraction digit, ties away from zero (the decimal rounding toFixed
performs on the exact value). -/
def roundTo1 (x : ℚ) : ℚ :=
  if x < 0 then -((⌊(-x) * 10 + 1 / 2⌋ : ℚ) / 10)
  else (⌊x * 10 + 1 / 2⌋ : ℚ) / 10

/-- GET /api/reports: `netProfit = totalIncome - totalExpenses; roi =
totalExpenses > 0 ? ((netProfit / totalExpenses) * 100).toFixed(1) : 0`.
The result tuple is (totalIncome, totalExpenses, netProfit, roi); the
SQL totals arrive through COALESCE(SUM(...), 0), so any period yields
some pair of totals and the theorems below quantify over all of them. -/
def reportSummary (totalIncome totalExpenses : ℚ) : ℚ × ℚ × ℚ × ℚ :=
  let netProfit := totalIncome - totalExpenses
  let roi := if 0 < totalExpenses then roundTo1 (netProfit / totalExpenses * 100)
    else 0
  (totalIncome, totalExpenses, netProfit, roi)

/-- C9 counterexample: with income 4 and expenses 3 the code returns
roi = 33.3 (the quotient rounded to one fraction digit), not the exact
netProfit / totalExpenses x 100 = 100/3 the claim states. -/
theorem report_roi_not_exact :
    (reportSummary 4 3).2.2.2 ≠ ((4 : ℚ) - 3) / 3 * 100 := by
  have h : (reportSummary 4 3).2.2.2 = 333 / 10 := by
    norm_num [reportSummary, roundTo1]
  rw [h]
  norm_num

theorem roundTo1_half_up_close (y : ℚ) :
    |(⌊y * 10 + 1 / 2⌋ : ℚ) / 10 - y| ≤ 1 / 20 := by
  have h1 : ((⌊y * 10 + 1 / 2⌋ : ℤ) : ℚ) ≤ y * 10 + 1 / 2 := Int.floor_le _
  have h2 : y * 10 + 1 / 2 < (⌊y * 10 + 1 / 2⌋ : ℤ) + 1 :=
    Int.lt_floor_add_one _
  rw [abs_le]
  constructor <;> [linarith; linarith]

theorem roundTo1_close (x : ℚ) : |roundTo1 x - x| ≤ 1 / 20 := by
  unfold roundTo1
  by_cases hx : x < 0
  · rw [if_pos hx]
    have heq : -((⌊(-x) * 10 + 1 / 2⌋ : ℚ) / 10) - x =
        -((⌊(-x) * 10 + 1 / 2⌋ : ℚ) / 10 - (-x)) := by ring
    rw [heq, abs_neg]
    exact roundTo1_half_up_close (-x)
  · rw [if_neg hx]
    exact roundTo1_half_up_close x

/-- C9 amended: roi is 0 whenever totalExpenses is not positive (in
particular when it is 0 — the division is guarded, so it never divides
by zero and always produces a well-defined rational, never an error or
a non-number), and when totalExpenses is positive roi is the exact
netProfit / totalExpenses x 100 rounded to one fraction digit, hence
within 1/20 of it. -/
theorem report_roi_behavior (totalIncome totalExpenses : ℚ) :
    (totalExpenses ≤ 0 → (reportSummary totalIncome totalExpenses).2.2.2 = 0) ∧
    (0 < totalExpenses →
      (reportSummary totalIncome totalExpenses).2.2.2 =
        roundTo1 ((totalIncome - totalExpenses) / totalExpenses * 100) ∧
      |(reportSummary totalIncome totalExpenses).2.2.2 -
        (totalIncome - totalExpenses) / totalExpenses * 100| ≤ 1 / 20) := by
  constructor
  · intro h
    simp [reportSummary, not_lt.mpr h]
  · intro h
    constructor
    · simp [reportSummary, h]
    · have heq : (reportSummary totalIncome totalExpenses).2.2.2 =
          roundTo1 ((totalIncome - totalExpenses) / totalExpenses * 100) := by
        simp [reportSummary, h]
      rw [heq]
      exact roundTo1_close _

theorem report_roi_behavior_witness :
    ((reportSummary 5 0).2.2.2 = 0) ∧
    ((reportSummary 4 3).2.2.2 =
        roundTo1 (((4 : ℚ) - 3) / 3 * 100) ∧
      |(reportSummary 4 3).2.2.2 - ((4 : ℚ) - 3) / 3 * 100| ≤ 1 / 20) :=
  ⟨(report_roi_behavior 5 0).1 (by norm_num),
   (report_roi_behavior 4 3).2 (by norm_num)⟩

end PropMgmt
